import Mathlib

/-!
Shallow embedding of the appointment-scheduling and technician-ranking core
of the Mechanic-Shop-System repository (TypeScript, browser local storage).

Conventions of the embedding:
* Absolute instants (JS `Date` values / epoch-millisecond `number`s) are `Int`
  milliseconds since the epoch.
* `"HH:MM"` time-of-day strings (`open_time`, `close_time`, `lunch_start`,
  `lunch_end`) are represented as `Int` minutes since midnight.  For valid
  zero-padded `"HH:MM"` strings JS lexicographic string comparison coincides
  with numeric comparison of the minute values, so `<`/`>` on the minute
  representation is faithful.
* JS `number`s that take part in fractional arithmetic (duration estimates,
  complexity multipliers, hourly rates, logged minutes) are `Rat`; integral
  ones (timestamps, day indices, counters) are `Int`/`Nat`.
* Optional fields (`field?:`) are `Option _`.  JS truthiness tests on numbers
  (`if (x)`) additionally exclude `0`, and are modelled as `x ≠ 0` guards.
* Stores are explicit records passed to every operation (the source reads a
  snapshot from local storage at the top of each method); bookkeeping
  timestamps written with `Date.now()` are threaded as a `now` parameter.
* The scheduling service's `tech_schedules` / `time_off_requests` collections
  and the database service's `customers` / `line_items` / `check_ins` /
  `common_services` collections are never read by any operation modelled
  here and are omitted from the store records.
-/

namespace MechanicShop

/-- Status union of `Appointment` (src/types: `'scheduled' | 'confirmed' |
'in_progress' | 'completed' | 'cancelled' | 'no_show'`). -/
inductive AppointmentStatus where
  | scheduled | confirmed | in_progress | completed | cancelled | no_show
deriving DecidableEq, Repr

/-- `Appointment` record (fields read by the scheduling service; timestamps in
epoch milliseconds). -/
structure Appointment where
  id : String
  customer_id : String
  service_type : String
  scheduled_start : Int
  scheduled_end : Int
  duration_minutes : Int
  status : AppointmentStatus
deriving DecidableEq, Repr

/-- `ShopSchedule` record; times of day in minutes since midnight (source:
`"HH:MM"` strings). -/
structure ShopSchedule where
  id : String
  day_of_week : Nat
  open_time : Int
  close_time : Int
  lunch_start : Option Int
  lunch_end : Option Int
  is_closed : Bool
  max_appointments_per_hour : Nat
  created_at : Int
  updated_at : Int
deriving DecidableEq, Repr

/-- `ServiceDuration` configuration record. -/
structure ServiceDuration where
  id : String
  service_id : String
  service_name : String
  category : String
  estimated_minutes : Rat
  minimum_minutes : Rat
  maximum_minutes : Rat
  buffer_minutes : Rat
  complexity_multiplier : Rat
  requires_specialist : Bool
  can_overlap : Bool
  created_at : Int
  updated_at : Int
deriving DecidableEq, Repr

/-- Conflict descriptor returned by `checkAppointmentConflict`.  The source's
`message` is a human-readable string interpolating
`appointmentStart.toLocaleTimeString()`; locale formatting is not modelled, so
the descriptor keeps the constant prefix only. -/
structure AppointmentConflict where
  type : String
  message : String
  conflicting_appointment_id : String
deriving DecidableEq, Repr

/-- Derived `TimeSlot` record produced by `getAvailableTimeSlots`. -/
structure TimeSlot where
  start : Int
  «end» : Int
  available : Bool
  reason : Option String
  available_techs : List String
deriving DecidableEq, Repr

/-- Snapshot of the `shop_scheduling` local-storage store (collections read by
the modelled operations). -/
structure SchedulingData where
  appointments : List Appointment
  shop_schedules : List ShopSchedule
  service_durations : List ServiceDuration
deriving Repr

/-- `getDefaultShopSchedule()`: seven weekday entries built from the seed
table (Mon-Fri 08:00-17:00, Sat 08:00-15:00, Sun 10:00-14:00, lunch
12:00-13:00, max 4 appointments per hour). -/
def getDefaultShopSchedule (now : Int) : List ShopSchedule :=
  let days : List (Nat × String × Int × Int) :=
    [(1, "Monday", 8*60, 17*60), (2, "Tuesday", 8*60, 17*60),
     (3, "Wednesday", 8*60, 17*60), (4, "Thursday", 8*60, 17*60),
     (5, "Friday", 8*60, 17*60), (6, "Saturday", 8*60, 15*60),
     (0, "Sunday", 10*60, 14*60)]
  days.map fun d =>
    { id := "schedule_" ++ toString d.1
      day_of_week := d.1
      open_time := d.2.2.1
      close_time := d.2.2.2
      lunch_start := some (12*60)
      lunch_end := some (13*60)
      is_closed := false
      max_appointments_per_hour := 4
      created_at := now
      updated_at := now }

/-- `getDefaultServiceDurations()`: the four seeded service-duration
configurations. -/
def getDefaultServiceDurations (now : Int) : List ServiceDuration :=
  [{ id := "oil-change-duration", service_id := "oil-change",
     service_name := "Oil Change", category := "maintenance",
     estimated_minutes := 30, minimum_minutes := 20, maximum_minutes := 45,
     buffer_minutes := 10, complexity_multiplier := 1,
     requires_specialist := false, can_overlap := true,
     created_at := now, updated_at := now },
   { id := "brake-inspection-duration", service_id := "brake-inspection",
     service_name := "Brake Inspection", category := "inspection",
     estimated_minutes := 45, minimum_minutes := 30, maximum_minutes := 60,
     buffer_minutes := 15, complexity_multiplier := 1.2,
     requires_specialist := false, can_overlap := false,
     created_at := now, updated_at := now },
   { id := "brake-pads-duration", service_id := "brake-pads",
     service_name := "Brake Pad Replacement", category := "repair",
     estimated_minutes := 90, minimum_minutes := 60, maximum_minutes := 120,
     buffer_minutes := 15, complexity_multiplier := 1.5,
     requires_specialist := true, can_overlap := false,
     created_at := now, updated_at := now },
   { id := "tire-rotation-duration", service_id := "tire-rotation",
     service_name := "Tire Rotation", category := "maintenance",
     estimated_minutes := 25, minimum_minutes := 15, maximum_minutes := 35,
     buffer_minutes := 10, complexity_multiplier := 1,
     requires_specialist := false, can_overlap := true,
     created_at := now, updated_at := now },
   { id := "alignment-duration", service_id := "alignment",
     service_name := "Wheel Alignment", category := "maintenance",
     estimated_minutes := 60, minimum_minutes := 45, maximum_minutes := 90,
     buffer_minutes := 15, complexity_multiplier := 1.3,
     requires_specialist := true, can_overlap := false,
     created_at := now, updated_at := now }]

/-- The store contents seeded on first access: no appointments, default shop
schedules, default service durations. -/
def defaultSchedulingData (now : Int) : SchedulingData :=
  { appointments := []
    shop_schedules := getDefaultShopSchedule now
    service_durations := getDefaultServiceDurations now }

/-- `getServiceDuration(serviceId)`: first configuration whose `service_id`
matches, else `null`. -/
def getServiceDuration (data : SchedulingData) (serviceId : String) :
    Option ServiceDuration :=
  data.service_durations.find? (fun sd => sd.service_id == serviceId)

/-- `calculateServiceDuration(serviceId, vehicleYear?)`: estimated minutes of
the configuration (60 when none exists), multiplied by the complexity
multiplier when `vehicleYear` is truthy (supplied and nonzero) and `< 2010`,
then `Math.ceil`ed. -/
def calculateServiceDuration (data : SchedulingData) (serviceId : String)
    (vehicleYear : Option Int) : Int :=
  match getServiceDuration data serviceId with
  | none => 60
  | some sd =>
    let duration : Rat :=
      match vehicleYear with
      | some y => if y ≠ 0 ∧ y < 2010 then
          sd.estimated_minutes * sd.complexity_multiplier
        else sd.estimated_minutes
      | none => sd.estimated_minutes
    Int.ceil duration

/-- `getShopScheduleForDay(date)`: first schedule whose `day_of_week` matches
the date's weekday (JS `date.getDay()`, passed here directly), else `null`. -/
def getShopScheduleForDay (data : SchedulingData) (dayOfWeek : Nat) :
    Option ShopSchedule :=
  data.shop_schedules.find? (fun schedule => schedule.day_of_week == dayOfWeek)

/-- The linear scan inside `checkAppointmentConflict`: skip `cancelled`
appointments; on the first appointment with
`startTime < appointmentEnd && endTime > appointmentStart` return the
descriptor; else `null`. -/
def conflictScan : List Appointment → Int → Int → Option AppointmentConflict
  | [], _, _ => none
  | appointment :: rest, startTime, endTime =>
    if appointment.status = .cancelled then conflictScan rest startTime endTime
    else if startTime < appointment.scheduled_end ∧
        endTime > appointment.scheduled_start then
      some { type := "double_booking"
             message := "Conflicts with existing appointment"
             conflicting_appointment_id := appointment.id }
    else conflictScan rest startTime endTime

/-- `checkAppointmentConflict(startTime, endTime)`: scan the stored
appointments in insertion order. -/
def checkAppointmentConflict (data : SchedulingData)
    (startTime endTime : Int) : Option AppointmentConflict :=
  conflictScan data.appointments startTime endTime

/-- `getAvailableTechs(startTime, endTime, serviceId)`: the source returns a
hardcoded default list for the MVP, ignoring all three arguments. -/
def getAvailableTechs (_startTime _endTime : Int) (_serviceId : String) :
    List String :=
  ["tech-001", "tech-002"]

/-- The lunch-break test of `getAvailableTimeSlots`: when both `lunch_start`
and `lunch_end` are present (truthy non-empty strings in the source),
`slotStartTime < lunch_end && slotEndTime > lunch_start` on the "HH:MM"
minute values. -/
def lunchOverlap (schedule : ShopSchedule) (slotStartTime slotEndTime : Int) :
    Bool :=
  match schedule.lunch_start, schedule.lunch_end with
  | some lunchStart, some lunchEnd =>
    slotStartTime < lunchEnd ∧ slotEndTime > lunchStart
  | _, _ => false

/-- The `while (currentSlot < endTime)` loop of `getAvailableTimeSlots`.
`fuel` is a structural-recursion bound on the iteration count; the caller
passes `(close_time - open_time) / 30 + 1`, which always exceeds the number
of 30-minute steps the source's loop makes, so the `fuel = 0` branch is never
the one that ends the recursion.  Times are epoch milliseconds; `base` is
midnight of the requested date, and `(t - base) / 60000` is the slot's
"HH:MM" time of day in minutes (the source's `toTimeString().slice(0, 5)`). -/
def slotLoop (data : SchedulingData) (schedule : ShopSchedule)
    (serviceId : String) (base endTime serviceDuration : Int) :
    Nat → Int → List TimeSlot
  | 0, _ => []
  | fuel + 1, currentSlot =>
    if currentSlot < endTime then
      if currentSlot + serviceDuration * 60000 > endTime then []
      else if lunchOverlap schedule ((currentSlot - base) / 60000)
          ((currentSlot + serviceDuration * 60000 - base) / 60000) then
        { start := currentSlot,
          «end» := currentSlot + serviceDuration * 60000,
          available := false, reason := some "lunch",
          available_techs := getAvailableTechs currentSlot
            (currentSlot + serviceDuration * 60000) serviceId } ::
          slotLoop data schedule serviceId base endTime serviceDuration fuel
            (currentSlot + 30 * 60000)
      else
        match checkAppointmentConflict data currentSlot
            (currentSlot + serviceDuration * 60000) with
        | some _ =>
          { start := currentSlot,
            «end» := currentSlot + serviceDuration * 60000,
            available := false, reason := some "booked",
            available_techs := getAvailableTechs currentSlot
              (currentSlot + serviceDuration * 60000) serviceId } ::
            slotLoop data schedule serviceId base endTime serviceDuration fuel
              (currentSlot + 30 * 60000)
        | none =>
          { start := currentSlot,
            «end» := currentSlot + serviceDuration * 60000,
            available := true, reason := none,
            available_techs := getAvailableTechs currentSlot
              (currentSlot + serviceDuration * 60000) serviceId } ::
            slotLoop data schedule serviceId base endTime serviceDuration fuel
              (currentSlot + 30 * 60000)
    else []

/-- `getAvailableTimeSlots(date, serviceId, vehicleYear?)`: empty when the
weekday has no schedule or is closed; otherwise 30-minute-stepped candidate
slots from `open_time`, dropping any whose end passes `close_time`, each
flagged against the lunch window and the appointment store. -/
def getAvailableTimeSlots (data : SchedulingData) (base : Int)
    (dayOfWeek : Nat) (serviceId : String) (vehicleYear : Option Int) :
    List TimeSlot :=
  match getShopScheduleForDay data dayOfWeek with
  | none => []
  | some schedule =>
    if schedule.is_closed then []
    else
      let serviceDuration := calculateServiceDuration data serviceId vehicleYear
      let startTime := base + schedule.open_time * 60000
      let endTime := base + schedule.close_time * 60000
      slotLoop data schedule serviceId base endTime serviceDuration
        ((schedule.close_time - schedule.open_time).toNat / 30 + 1) startTime

/-! ### The browser-database service (work orders, technicians, ranking) -/

/-- `WorkOrderStatus` union. -/
inductive WorkOrderStatus where
  | pending | in_progress | awaiting_approval | approved | completed
  | cancelled
deriving DecidableEq, Repr

/-- `WorkOrder` record.  `description` is read by the ranking engine through
optional chaining although the declared interface does not list it, so at
runtime it is `undefined` unless some caller set it; it is `Option String`
here. -/
structure WorkOrder where
  id : String
  vehicle_id : String
  customer_id : String
  status : WorkOrderStatus
  assigned_tech : Option String
  mileage : Option Int
  customer_concern : Option String
  description : Option String
  diagnosis : Option String
  created_at : Int
  updated_at : Int
deriving DecidableEq, Repr

/-- `TechProfile` record. -/
structure TechProfile where
  id : String
  name : String
  employee_id : Option String
  certifications : Option (List String)
  specialties : Option (List String)
  hourly_rate : Option Rat
  active : Bool
  created_at : Int
  updated_at : Int
deriving DecidableEq, Repr

/-- `Vehicle` record (fields read by the ranking engine). -/
structure Vehicle where
  id : String
  customer_id : String
  year : Option Int
  make : Option String
  model : Option String
deriving DecidableEq, Repr

/-- `TimeEntry` record (durations in minutes). -/
structure TimeEntry where
  id : String
  work_order_id : String
  tech_id : String
  start_time : Int
  end_time : Option Int
  duration : Option Rat
  billable : Bool
deriving DecidableEq, Repr

/-- Snapshot of the `shop_database` local-storage store (collections read by
the modelled operations). -/
structure StorageData where
  work_orders : List WorkOrder
  vehicles : List Vehicle
  tech_profiles : List TechProfile
  time_entries : List TimeEntry
deriving Repr

/-- The three technician profiles seeded on first access. -/
def getDefaultTechProfiles (now : Int) : List TechProfile :=
  [{ id := "tech-001", name := "Mike Johnson", employee_id := some "EMP001",
     certifications := some ["ASE A1", "ASE A5", "ASE A8"],
     specialties := some ["brake", "suspension", "general"],
     hourly_rate := some 45, active := true,
     created_at := now, updated_at := now },
   { id := "tech-002", name := "Sarah Chen", employee_id := some "EMP002",
     certifications := some ["ASE A6", "ASE A7", "ASE L1"],
     specialties := some ["electrical", "engine", "diagnostic"],
     hourly_rate := some 50, active := true,
     created_at := now, updated_at := now },
   { id := "tech-003", name := "Carlos Rodriguez",
     employee_id := some "EMP003",
     certifications := some ["ASE A2", "ASE A3"],
     specialties := some ["transmission", "engine", "general"],
     hourly_rate := some 42, active := true,
     created_at := now, updated_at := now }]

/-- The record returned by `getTechWorkload`. -/
structure TechWorkload where
  activeJobs : Nat
  totalEstimatedHours : Nat
  todayHours : Rat
  weekHours : Rat
deriving DecidableEq, Repr

/-- `getTechWorkload(techId)`: active (pending or in-progress) work orders
assigned to the technician, a `2 * activeJobs` hour estimate, and logged
hours since the start of today / of the week.  `today` and `weekStart` come
from the ambient clock (`new Date()`) in the source and are threaded as
epoch-millisecond parameters here. -/
def getTechWorkload (data : StorageData) (techId : String)
    (today weekStart : Int) : TechWorkload :=
  let activeJobs := data.work_orders.filter (fun wo =>
    wo.assigned_tech == some techId &&
    (wo.status == WorkOrderStatus.pending ||
     wo.status == WorkOrderStatus.in_progress))
  let todayEntries := data.time_entries.filter (fun te =>
    te.tech_id == techId && today ≤ te.start_time)
  let weekEntries := data.time_entries.filter (fun te =>
    te.tech_id == techId && weekStart ≤ te.start_time)
  { activeJobs := activeJobs.length
    totalEstimatedHours := activeJobs.length * 2
    todayHours := todayEntries.foldl (fun sum entry =>
      sum + (entry.duration.getD 0) / 60) 0
    weekHours := weekEntries.foldl (fun sum entry =>
      sum + (entry.duration.getD 0) / 60) 0 }

/-- ASCII lower-casing of JS `String.prototype.toLowerCase()` (all strings
the ranking engine compares are ASCII). -/
def jsToLower (s : String) : String := String.mk (s.data.map Char.toLower)

/-- Substring scan underlying JS `String.prototype.includes`. -/
def jsIncludesList (pat : List Char) : List Char → Bool
  | [] => pat.isEmpty
  | c :: rest => pat.isPrefixOf (c :: rest) || jsIncludesList pat rest

/-- JS `s.includes(pat)`. -/
def jsIncludes (s pat : String) : Bool := jsIncludesList pat.data s.data

/-- The fixed per-specialty keyword dictionary of
`matchesSpecialtyKeywords`. -/
def specialtyKeywordMap : String → List String
  | "brake" => ["brake", "stop", "squeaking", "grinding", "pedal"]
  | "engine" => ["engine", "motor", "performance", "power", "stall",
      "rough idle"]
  | "electrical" => ["electric", "battery", "alternator", "starter", "wiring",
      "lights"]
  | "transmission" => ["transmission", "shift", "gear", "clutch", "automatic"]
  | "suspension" => ["suspension", "shock", "strut", "bounce", "ride",
      "alignment"]
  | "hvac" => ["heat", "air conditioning", "ac", "climate", "defrost",
      "blower"]
  | "tire" => ["tire", "wheel", "alignment", "balance", "rotation"]
  | _ => []

/-- `matchesSpecialtyKeywords(specialty, jobText)`. -/
def matchesSpecialtyKeywords (specialty jobText : String) : Bool :=
  (specialtyKeywordMap specialty).any (fun keyword => jsIncludes jobText keyword)

/-- The broader category dictionary of `matchesSpecialtyCategory`. -/
def specialtyCategoryMap : String → List String
  | "engine" => ["maintenance", "service", "tune-up", "oil"]
  | "brake" => ["safety", "inspection"]
  | "electrical" => ["diagnostic", "check engine", "warning light"]
  | "transmission" => ["fluid", "service"]
  | "hvac" => ["comfort", "cabin"]
  | "tire" => ["safety", "maintenance"]
  | _ => []

/-- `matchesSpecialtyCategory(specialty, jobText)`. -/
def matchesSpecialtyCategory (specialty jobText : String) : Bool :=
  (specialtyCategoryMap specialty).any (fun category => jsIncludes jobText category)

/-- `isUrgentJob(workOrder)`: the lower-cased customer concern contains an
urgent keyword. -/
def isUrgentJob (workOrder : WorkOrder) : Bool :=
  let concern := jsToLower (workOrder.customer_concern.getD "")
  ["urgent", "emergency", "broke down", "won\x27t start", "dangerous",
   "unsafe"].any (fun keyword => jsIncludes concern keyword)

/-- The job text the specialty matcher scans: lower-cased
`customer_concern`, a space, lower-cased `description` (each defaulting to
the empty string), the whole lower-cased again. -/
def jobText (workOrder : WorkOrder) : String :=
  let concern := jsToLower (workOrder.customer_concern.getD "")
  let services := jsToLower (workOrder.description.getD "")
  jsToLower (concern ++ " " ++ services)

/-!
The scoring body of `suggestTechForWorkOrder` mutates a single `score`
variable through six independent `+=` blocks; the total is therefore the sum
of the six block contributions, each defined below in source order.
-/

/-- Workload penalty/bonus block: `>=4 → -50`, `>=3 → -30`, `>=2 → -15`,
`==0 → +25`, one active job → no adjustment. -/
def workloadAdjustment (activeJobs : Nat) : Int :=
  if activeJobs ≥ 4 then -50
  else if activeJobs ≥ 3 then -30
  else if activeJobs ≥ 2 then -15
  else if activeJobs = 0 then 25
  else 0

/-- Experience-bonus block: for a truthy (set, nonzero) hourly rate,
`>=35 → +15`, `>=25 → +10`, otherwise `+5`. -/
def experienceBonus (tech : TechProfile) : Int :=
  match tech.hourly_rate with
  | some rate =>
    if rate ≠ 0 then
      if rate ≥ 35 then 15 else if rate ≥ 25 then 10 else 5
    else 0
  | none => 0

/-- Certification-bonus block: `+5` per certification when the list is
present and non-empty. -/
def certificationBonus (tech : TechProfile) : Int :=
  match tech.certifications with
  | some certs => if 0 < certs.length then certs.length * 5 else 0
  | none => 0

/-- One iteration of the specialty `forEach`: the accumulator carries the
source's `(score, specialtyMatch)` pair; the first matching tier wins
(`direct +40`, `keyword +30`, `category +20`). -/
def specialtyStep (jt : String) (acc : Int × Bool) (specialty : String) :
    Int × Bool :=
  if jsIncludes jt (jsToLower specialty) then (acc.1 + 40, true)
  else if matchesSpecialtyKeywords (jsToLower specialty) jt then
    (acc.1 + 30, true)
  else if matchesSpecialtyCategory (jsToLower specialty) jt then
    (acc.1 + 20, true)
  else acc

/-- Specialty-matching block: fold `specialtyStep` over the technician's
specialties when present and non-empty; `-10` when none matched. -/
def specialtyAdjustment (workOrder : WorkOrder) (tech : TechProfile) : Int :=
  match tech.specialties with
  | some specialties =>
    if 0 < specialties.length then
      match specialties.foldl (specialtyStep (jobText workOrder))
          (0, false) with
      | (score, specialtyMatch) => score + (if specialtyMatch then 0 else -10)
    else 0
  | none => 0

/-- Vehicle-age block: `+10` when the work order references a vehicle (truthy
non-empty id) found in the store with `year < 2010` (false when the year is
unset) and the technician's rate is truthy and `>= 30`. -/
def vehicleAgeBonus (data : StorageData) (workOrder : WorkOrder)
    (tech : TechProfile) : Int :=
  if workOrder.vehicle_id ≠ "" then
    match data.vehicles.find? (fun v => v.id == workOrder.vehicle_id) with
    | some vehicle =>
      match vehicle.year with
      | some year =>
        if year < 2010 then
          match tech.hourly_rate with
          | some rate => if rate ≠ 0 ∧ rate ≥ 30 then 10 else 0
          | none => 0
        else 0
      | none => 0
    | none => 0
  else 0

/-- Urgency block: `+15` when the job is urgent and the technician's rate is
truthy and `>= 30`. -/
def urgencyBonus (workOrder : WorkOrder) (tech : TechProfile) : Int :=
  if isUrgentJob workOrder then
    match tech.hourly_rate with
    | some rate => if rate ≠ 0 ∧ rate ≥ 30 then 15 else 0
    | none => 0
  else 0

/-- Total score of one technician for one work order (the sum of the six
`+=` blocks in source order). -/
def scoreTech (data : StorageData) (workOrder : WorkOrder)
    (tech : TechProfile) (today weekStart : Int) : Int :=
  workloadAdjustment (getTechWorkload data tech.id today weekStart).activeJobs
    + experienceBonus tech
    + certificationBonus tech
    + specialtyAdjustment workOrder tech
    + vehicleAgeBonus data workOrder tech
    + urgencyBonus workOrder tech

/-- One entry of the scored list: the source spreads the profile and adds
`score` and `workload` (`{...tech, score, workload}`). -/
structure ScoredTech where
  tech : TechProfile
  score : Int
  workload : TechWorkload
deriving Repr

/-- The scored entry built for one technician inside
`suggestTechForWorkOrder`. -/
def scoredEntry (data : StorageData) (workOrder : WorkOrder)
    (today weekStart : Int) (tech : TechProfile) : ScoredTech :=
  { tech := tech
    score := scoreTech data workOrder tech today weekStart
    workload := getTechWorkload data tech.id today weekStart }

/-- Descending-by-score order of the ranking (`sort((a, b) => b.score -
a.score)`, a stable sort in JS engines; `List.insertionSort` with this
relation is the same stable descending sort). -/
def scoreOrder (a b : ScoredTech) : Prop := b.score ≤ a.score

instance : DecidableRel scoreOrder := fun a b =>
  inferInstanceAs (Decidable (b.score ≤ a.score))

/-- `suggestTechForWorkOrder(workOrderId)`: empty when the work order is
unknown or no active technicians exist; otherwise score every active
technician, sort descending by score and return the first five. -/
def suggestTechForWorkOrder (data : StorageData) (workOrderId : String)
    (today weekStart : Int) : List ScoredTech :=
  match data.work_orders.find? (fun wo => wo.id == workOrderId) with
  | none => []
  | some workOrder =>
    let allTechs := data.tech_profiles.filter (fun t => t.active)
    if allTechs.length = 0 then []
    else
      let scoredTechs := List.insertionSort scoreOrder
        (allTechs.map (scoredEntry data workOrder today weekStart))
      scoredTechs.take 5

/-! ## Lemmas about the conflict scan -/

lemma conflictScan_isSome_iff (s e : Int) (l : List Appointment) :
    (conflictScan l s e).isSome = true ↔
      ∃ a ∈ l, a.status ≠ AppointmentStatus.cancelled ∧
        s < a.scheduled_end ∧ e > a.scheduled_start := by
  induction l with
  | nil => simp [conflictScan]
  | cons a rest ih =>
    simp only [conflictScan]
    by_cases hc : a.status = AppointmentStatus.cancelled
    · rw [if_pos hc, ih]
      constructor
      · rintro ⟨b, hb, h⟩; exact ⟨b, List.mem_cons_of_mem _ hb, h⟩
      · rintro ⟨b, hb, h⟩
        rcases List.mem_cons.mp hb with rfl | hb'
        · exact absurd hc h.1
        · exact ⟨b, hb', h⟩
    · rw [if_neg hc]
      by_cases ho : s < a.scheduled_end ∧ e > a.scheduled_start
      · rw [if_pos ho]
        simp only [Option.isSome_some, true_iff]
        exact ⟨a, List.mem_cons_self a rest, hc, ho⟩
      · rw [if_neg ho, ih]
        constructor
        · rintro ⟨b, hb, h⟩; exact ⟨b, List.mem_cons_of_mem _ hb, h⟩
        · rintro ⟨b, hb, h⟩
          rcases List.mem_cons.mp hb with rfl | hb'
          · exact absurd ⟨h.2.1, h.2.2⟩ ho
          · exact ⟨b, hb', h⟩

lemma conflictScan_eq_some (s e : Int) (l : List Appointment)
    (c : AppointmentConflict) (h : conflictScan l s e = some c) :
    ∃ l₁ a l₂, l = l₁ ++ a :: l₂ ∧
      (a.status ≠ AppointmentStatus.cancelled ∧
        s < a.scheduled_end ∧ e > a.scheduled_start) ∧
      c.conflicting_appointment_id = a.id ∧
      ∀ b ∈ l₁, ¬(b.status ≠ AppointmentStatus.cancelled ∧
        s < b.scheduled_end ∧ e > b.scheduled_start) := by
  induction l generalizing c with
  | nil => simp [conflictScan] at h
  | cons a rest ih =>
    simp only [conflictScan] at h
    by_cases hc : a.status = AppointmentStatus.cancelled
    · rw [if_pos hc] at h
      obtain ⟨l₁, b, l₂, hl, hov, hid, hfirst⟩ := ih c h
      refine ⟨a :: l₁, b, l₂, by rw [hl, List.cons_append], hov, hid, ?_⟩
      intro x hx
      rcases List.mem_cons.mp hx with rfl | hx'
      · exact fun hcon => hcon.1 hc
      · exact hfirst x hx'
    · rw [if_neg hc] at h
      by_cases ho : s < a.scheduled_end ∧ e > a.scheduled_start
      · rw [if_pos ho] at h
        refine ⟨[], a, rest, rfl, ⟨hc, ho⟩, ?_, by simp⟩
        cases h
        rfl
      · rw [if_neg ho] at h
        obtain ⟨l₁, b, l₂, hl, hov, hid, hfirst⟩ := ih c h
        refine ⟨a :: l₁, b, l₂, by rw [hl, List.cons_append], hov, hid, ?_⟩
        intro x hx
        rcases List.mem_cons.mp hx with rfl | hx'
        · exact fun hcon => ho ⟨hcon.2.1, hcon.2.2⟩
        · exact hfirst x hx'

/-! ## Lemmas about the slot-generation loop -/

lemma slotLoop_mem (data : SchedulingData) (schedule : ShopSchedule)
    (serviceId : String) (base endTime serviceDuration : Int) :
    ∀ (fuel : Nat) (currentSlot : Int) (s : TimeSlot),
      s ∈ slotLoop data schedule serviceId base endTime serviceDuration fuel
        currentSlot →
      (∃ k : Nat, s.start = currentSlot + 30 * 60000 * (k : Int)) ∧
      s.«end» = s.start + serviceDuration * 60000 ∧
      s.«end» ≤ endTime ∧
      s.available_techs = getAvailableTechs s.start s.«end» serviceId ∧
      s.available = (!(lunchOverlap schedule ((s.start - base) / 60000)
          ((s.«end» - base) / 60000)) &&
        !(checkAppointmentConflict data s.start s.«end»).isSome) ∧
      s.reason = (if lunchOverlap schedule ((s.start - base) / 60000)
            ((s.«end» - base) / 60000) then some "lunch"
          else if (checkAppointmentConflict data s.start s.«end»).isSome then
            some "booked"
          else none) := by
  intro fuel
  induction fuel with
  | zero => intro c s h; simp [slotLoop] at h
  | succ n ih =>
    intro c s h
    simp only [slotLoop] at h
    split_ifs at h with h1 h2 h3
    · simp at h
    · rcases List.mem_cons.mp h with rfl | hmem
      · refine ⟨⟨0, by norm_num⟩, rfl, not_lt.mp h2, rfl, ?_, ?_⟩
        · simp [h3]
        · simp [h3]
      · obtain ⟨⟨k, hk⟩, hrest⟩ := ih (c + 30 * 60000) s hmem
        exact ⟨⟨k + 1, by rw [hk]; push_cast; ring⟩, hrest⟩
    · cases hB : checkAppointmentConflict data c
        (c + serviceDuration * 60000) with
      | some val =>
        rw [hB] at h
        rcases List.mem_cons.mp h with rfl | hmem
        · refine ⟨⟨0, by norm_num⟩, rfl, not_lt.mp h2, rfl, ?_, ?_⟩
          · simp [h3, hB]
          · simp [h3, hB]
        · obtain ⟨⟨k, hk⟩, hrest⟩ := ih (c + 30 * 60000) s hmem
          exact ⟨⟨k + 1, by rw [hk]; push_cast; ring⟩, hrest⟩
      | none =>
        rw [hB] at h
        rcases List.mem_cons.mp h with rfl | hmem
        · refine ⟨⟨0, by norm_num⟩, rfl, not_lt.mp h2, rfl, ?_, ?_⟩
          · simp [h3, hB]
          · simp [h3, hB]
        · obtain ⟨⟨k, hk⟩, hrest⟩ := ih (c + 30 * 60000) s hmem
          exact ⟨⟨k + 1, by rw [hk]; push_cast; ring⟩, hrest⟩
    · simp at h

lemma slotLoop_pairwise (data : SchedulingData) (schedule : ShopSchedule)
    (serviceId : String) (base endTime serviceDuration : Int) :
    ∀ (fuel : Nat) (currentSlot : Int),
      (slotLoop data schedule serviceId base endTime serviceDuration fuel
        currentSlot).Pairwise (fun a b => a.start < b.start) := by
  intro fuel
  induction fuel with
  | zero => intro c; simp [slotLoop]
  | succ n ih =>
    intro c
    have hstep : ∀ b ∈ slotLoop data schedule serviceId base endTime
        serviceDuration n (c + 30 * 60000), c < b.start := by
      intro b hb
      obtain ⟨k, hk⟩ := (slotLoop_mem data schedule serviceId base endTime
        serviceDuration n (c + 30 * 60000) b hb).1
      omega
    simp only [slotLoop]
    split_ifs with h1 h2 h3
    · simp
    · exact List.pairwise_cons.mpr ⟨fun b hb => hstep b hb, ih _⟩
    · cases hB : checkAppointmentConflict data c
        (c + serviceDuration * 60000) with
      | some val => exact List.pairwise_cons.mpr ⟨fun b hb => hstep b hb, ih _⟩
      | none => exact List.pairwise_cons.mpr ⟨fun b hb => hstep b hb, ih _⟩
    · simp

lemma getAvailableTimeSlots_eq (data : SchedulingData) (base : Int)
    (dayOfWeek : Nat) (serviceId : String) (vehicleYear : Option Int)
    (schedule : ShopSchedule)
    (hs : getShopScheduleForDay data dayOfWeek = some schedule)
    (hc : schedule.is_closed = false) :
    getAvailableTimeSlots data base dayOfWeek serviceId vehicleYear =
      slotLoop data schedule serviceId base
        (base + schedule.close_time * 60000)
        (calculateServiceDuration data serviceId vehicleYear)
        ((schedule.close_time - schedule.open_time).toNat / 30 + 1)
        (base + schedule.open_time * 60000) := by
  simp [getAvailableTimeSlots, hs, hc]

/-! ## Concrete stores used to instantiate the theorems -/

/-- A non-cancelled appointment from 00:10 to 00:20 (epoch ms). -/
def apt1 : Appointment :=
  { id := "appt-1", customer_id := "cust-1", service_type := "oil-change",
    scheduled_start := 600000, scheduled_end := 1200000,
    duration_minutes := 10, status := .scheduled }

/-- A cancelled appointment covering 00:00 to 02:00, stored first. -/
def aptCancelled : Appointment :=
  { id := "appt-0", customer_id := "cust-0", service_type := "brake-pads",
    scheduled_start := 0, scheduled_end := 7200000,
    duration_minutes := 120, status := .cancelled }

/-- A scheduling store with one cancelled and one active appointment and no
service-duration configurations. -/
def conflictDemo : SchedulingData :=
  { appointments := [aptCancelled, apt1]
    shop_schedules := []
    service_durations := [] }

/-- C1: `checkAppointmentConflict(start, end)` returns a descriptor iff some
stored non-cancelled appointment satisfies `start < scheduled_end ∧
end > scheduled_start`; the descriptor carries the id of the first such
appointment in store order and the scan stops there; an interval equal to an
active appointment's (non-degenerate) interval conflicts; an interval that at
most touches every active appointment's boundary yields `null`. -/
theorem claim_C1 (data : SchedulingData) :
    (∀ s e : Int, (checkAppointmentConflict data s e).isSome = true ↔
      ∃ a ∈ data.appointments, a.status ≠ AppointmentStatus.cancelled ∧
        s < a.scheduled_end ∧ e > a.scheduled_start) ∧
    (∀ (s e : Int) (c : AppointmentConflict),
      checkAppointmentConflict data s e = some c →
      ∃ l₁ a l₂, data.appointments = l₁ ++ a :: l₂ ∧
        (a.status ≠ AppointmentStatus.cancelled ∧
          s < a.scheduled_end ∧ e > a.scheduled_start) ∧
        c.conflicting_appointment_id = a.id ∧
        ∀ b ∈ l₁, ¬(b.status ≠ AppointmentStatus.cancelled ∧
          s < b.scheduled_end ∧ e > b.scheduled_start)) ∧
    (∀ a ∈ data.appointments, a.status ≠ AppointmentStatus.cancelled →
      a.scheduled_start < a.scheduled_end →
      (checkAppointmentConflict data a.scheduled_start
        a.scheduled_end).isSome = true) ∧
    (∀ s e : Int,
      (∀ a ∈ data.appointments, a.status ≠ AppointmentStatus.cancelled →
        e ≤ a.scheduled_start ∨ a.scheduled_end ≤ s) →
      checkAppointmentConflict data s e = none) := by
  refine ⟨fun s e => conflictScan_isSome_iff s e data.appointments,
    fun s e c h => conflictScan_eq_some s e data.appointments c h,
    fun a ha hc hlt => ?_, fun s e h => ?_⟩
  · exact (conflictScan_isSome_iff _ _ _).mpr ⟨a, ha, hc, hlt, hlt⟩
  · have hn : ¬(conflictScan data.appointments s e).isSome = true := by
      rw [conflictScan_isSome_iff]
      rintro ⟨a, ha, hc, h1, h2⟩
      rcases h a ha hc with h3 | h3
      · exact absurd h2 (not_lt.mpr h3)
      · exact absurd h1 (not_lt.mpr h3)
    exact Option.not_isSome_iff_eq_none.mp hn

/-- Instantiation of `claim_C1` on `conflictDemo`: the interval equal to the
active appointment's interval conflicts, and the interval ending exactly at
its start does not. -/
theorem claim_C1_witness :
    (checkAppointmentConflict conflictDemo 600000 1200000).isSome = true ∧
    checkAppointmentConflict conflictDemo 0 600000 = none :=
  ⟨(claim_C1 conflictDemo).2.2.1 apt1 (by decide) (by decide) (by decide),
   (claim_C1 conflictDemo).2.2.2 0 600000 (by decide)⟩

/-- C10: `checkAppointmentConflict` does not validate its interval: the empty
interval `[900000, 900000)` lies strictly inside the active appointment
`apt1 = [600000, 1200000)` of `conflictDemo`, and a conflict descriptor is
returned for it. -/
theorem claim_C10 :
    apt1.scheduled_start < 900000 ∧ (900000 : Int) < apt1.scheduled_end ∧
    apt1.status ≠ AppointmentStatus.cancelled ∧
    (checkAppointmentConflict conflictDemo 900000 900000).isSome = true := by
  decide

/-- C4 (amended: the multiplier applies when `vehicleYear` is supplied,
nonzero — JS truthiness — and `< 2010`): default 60 without a configuration;
`ceil(estimated * multiplier)` for a truthy year `< 2010`; seeded values 135
and 90 for brake pads with years 2005 and 2020. -/
theorem claim_C4 (now : Int) :
    (∀ (data : SchedulingData) (sid : String) (vy : Option Int),
      getServiceDuration data sid = none →
      calculateServiceDuration data sid vy = 60) ∧
    (∀ (data : SchedulingData) (sid : String) (sd : ServiceDuration)
      (y : Int), getServiceDuration data sid = some sd → y ≠ 0 → y < 2010 →
      calculateServiceDuration data sid (some y) =
        Int.ceil (sd.estimated_minutes * sd.complexity_multiplier)) ∧
    calculateServiceDuration (defaultSchedulingData now) "brake-pads"
      (some 2005) = 135 ∧
    (135 : Int) = Int.ceil ((90 : Rat) * 1.5) ∧
    calculateServiceDuration (defaultSchedulingData now) "brake-pads"
      (some 2020) = 90 := by
  refine ⟨?_, ?_, ?_, ?_, ?_⟩
  · intro data sid vy h
    simp [calculateServiceDuration, h]
  · intro data sid sd y h hy hlt
    simp [calculateServiceDuration, h, hy, hlt]
  · show Int.ceil ((90 : Rat) * 1.5) = 135
    norm_num
  · norm_num
  · show Int.ceil ((90 : Rat)) = 90
    norm_num

/-- Instantiation of `claim_C4`'s no-configuration rule on a store without
service durations. -/
theorem claim_C4_witness :
    getServiceDuration conflictDemo "oil-change" = none ∧
    calculateServiceDuration conflictDemo "oil-change" none = 60 :=
  ⟨rfl, (claim_C4 0).1 conflictDemo "oil-change" none rfl⟩

/-- C4 fails as stated at vehicle year 0: the year is supplied and `< 2010`,
yet the JS truthiness guard skips the multiplier and the seeded brake-pads
duration comes back 90, not `ceil(90 * 1.5) = 135`. -/
theorem claim_C4_counterexample :
    (0 : Int) < 2010 ∧
    calculateServiceDuration (defaultSchedulingData 0) "brake-pads"
      (some 0) = 90 ∧
    Int.ceil ((90 : Rat) * 1.5) = 135 ∧ (90 : Int) ≠ 135 := by
  refine ⟨by decide, by decide, by norm_num, by decide⟩

/-- The seeded Monday schedule: open 08:00 (480), close 17:00 (1020), lunch
12:00-13:00 (720-780). -/
def mondaySchedule : ShopSchedule :=
  { id := "schedule_1", day_of_week := 1, open_time := 480,
    close_time := 1020, lunch_start := some 720, lunch_end := some 780,
    is_closed := false, max_appointments_per_hour := 4,
    created_at := 0, updated_at := 0 }

/-- Slot list for a Monday (base = epoch midnight 0) on the freshly seeded
store (zero appointments), for the 30-minute oil change, no vehicle year. -/
def mondaySlots : List TimeSlot :=
  getAvailableTimeSlots (defaultSchedulingData 0) 0 1 "oil-change" none

/-- C2: every returned slot starts at `open_time` plus a non-negative
multiple of 30 minutes, spans exactly the computed service duration, ends no
later than `close_time`, and the sequence is strictly ascending in slot
start. -/
theorem claim_C2 (data : SchedulingData) (base : Int) (dayOfWeek : Nat)
    (serviceId : String) (vehicleYear : Option Int) (schedule : ShopSchedule)
    (hs : getShopScheduleForDay data dayOfWeek = some schedule)
    (hc : schedule.is_closed = false) :
    (∀ s ∈ getAvailableTimeSlots data base dayOfWeek serviceId vehicleYear,
      (∃ k : Nat,
        s.start = base + (schedule.open_time + 30 * (k : Int)) * 60000) ∧
      s.«end» - s.start =
        calculateServiceDuration data serviceId vehicleYear * 60000 ∧
      s.«end» ≤ base + schedule.close_time * 60000) ∧
    (getAvailableTimeSlots data base dayOfWeek serviceId
      vehicleYear).Pairwise (fun a b => a.start < b.start) := by
  rw [getAvailableTimeSlots_eq data base dayOfWeek serviceId vehicleYear
    schedule hs hc]
  refine ⟨fun s hmem => ?_, slotLoop_pairwise _ _ _ _ _ _ _ _⟩
  obtain ⟨⟨k, hk⟩, hend, hle, -⟩ := slotLoop_mem data schedule serviceId base
    (base + schedule.close_time * 60000)
    (calculateServiceDuration data serviceId vehicleYear) _ _ s hmem
  exact ⟨⟨k, by rw [hk]; ring⟩, by omega, hle⟩

/-- Instantiation of `claim_C2` on the seeded Monday store. -/
theorem claim_C2_witness :
    getShopScheduleForDay (defaultSchedulingData 0) 1 = some mondaySchedule ∧
    mondaySchedule.is_closed = false ∧
    ((∀ s ∈ mondaySlots,
      (∃ k : Nat,
        s.start = 0 + (mondaySchedule.open_time + 30 * (k : Int)) * 60000) ∧
      s.«end» - s.start =
        calculateServiceDuration (defaultSchedulingData 0) "oil-change" none
          * 60000 ∧
      s.«end» ≤ 0 + mondaySchedule.close_time * 60000) ∧
    mondaySlots.Pairwise (fun a b => a.start < b.start)) :=
  ⟨by decide, by decide,
    claim_C2 (defaultSchedulingData 0) 0 1 "oil-change" none mondaySchedule
      (by decide) (by decide)⟩

/-- C3: per candidate slot, the lunch-window overlap is checked first and
wins (reason `"lunch"`), the appointment-conflict check runs only otherwise
(reason `"booked"`), and a slot passing both is available with no reason; a
slot overlapping both lunch and a booked appointment reports `"lunch"`. -/
theorem claim_C3 (data : SchedulingData) (base : Int) (dayOfWeek : Nat)
    (serviceId : String) (vehicleYear : Option Int) (schedule : ShopSchedule)
    (hs : getShopScheduleForDay data dayOfWeek = some schedule)
    (hc : schedule.is_closed = false) :
    ∀ s ∈ getAvailableTimeSlots data base dayOfWeek serviceId vehicleYear,
      (lunchOverlap schedule ((s.start - base) / 60000)
          ((s.«end» - base) / 60000) = true →
        s.available = false ∧ s.reason = some "lunch") ∧
      (lunchOverlap schedule ((s.start - base) / 60000)
          ((s.«end» - base) / 60000) = false →
        (checkAppointmentConflict data s.start s.«end»).isSome = true →
        s.available = false ∧ s.reason = some "booked") ∧
      (lunchOverlap schedule ((s.start - base) / 60000)
          ((s.«end» - base) / 60000) = false →
        checkAppointmentConflict data s.start s.«end» = none →
        s.available = true ∧ s.reason = none) ∧
      (lunchOverlap schedule ((s.start - base) / 60000)
          ((s.«end» - base) / 60000) = true →
        (checkAppointmentConflict data s.start s.«end»).isSome = true →
        s.reason = some "lunch") := by
  rw [getAvailableTimeSlots_eq data base dayOfWeek serviceId vehicleYear
    schedule hs hc]
  intro s hmem
  obtain ⟨-, -, -, -, hav, hreason⟩ := slotLoop_mem data schedule serviceId
    base (base + schedule.close_time * 60000)
    (calculateServiceDuration data serviceId vehicleYear) _ _ s hmem
  refine ⟨fun hl => ?_, fun hl hb => ?_, fun hl hb => ?_, fun hl _ => ?_⟩
  · rw [hav, hreason, hl]; simp
  · rw [hav, hreason, hl, hb]; simp
  · rw [hav, hreason, hl, hb]; simp
  · rw [hreason, hl]; simp

/-- Instantiation of `claim_C3` on the seeded Monday store. -/
theorem claim_C3_witness :
    getShopScheduleForDay (defaultSchedulingData 0) 1 = some mondaySchedule ∧
    mondaySchedule.is_closed = false ∧
    (∀ s ∈ mondaySlots,
      (lunchOverlap mondaySchedule ((s.start - 0) / 60000)
          ((s.«end» - 0) / 60000) = true →
        s.available = false ∧ s.reason = some "lunch") ∧
      (lunchOverlap mondaySchedule ((s.start - 0) / 60000)
          ((s.«end» - 0) / 60000) = false →
        (checkAppointmentConflict (defaultSchedulingData 0) s.start
          s.«end»).isSome = true →
        s.available = false ∧ s.reason = some "booked") ∧
      (lunchOverlap mondaySchedule ((s.start - 0) / 60000)
          ((s.«end» - 0) / 60000) = false →
        checkAppointmentConflict (defaultSchedulingData 0) s.start
          s.«end» = none →
        s.available = true ∧ s.reason = none) ∧
      (lunchOverlap mondaySchedule ((s.start - 0) / 60000)
          ((s.«end» - 0) / 60000) = true →
        (checkAppointmentConflict (defaultSchedulingData 0) s.start
          s.«end»).isSome = true →
        s.reason = some "lunch")) :=
  ⟨by decide, by decide,
    claim_C3 (defaultSchedulingData 0) 0 1 "oil-change" none mondaySchedule
      (by decide) (by decide)⟩

/-- C9: when the weekday's schedule is missing or marked closed,
`getAvailableTimeSlots` returns the empty list (the total Lean function never
throws), for every service and vehicle year. -/
theorem claim_C9 (data : SchedulingData) (base : Int) (dayOfWeek : Nat)
    (serviceId : String) (vehicleYear : Option Int)
    (h : getShopScheduleForDay data dayOfWeek = none ∨
      ∃ schedule, getShopScheduleForDay data dayOfWeek = some schedule ∧
        schedule.is_closed = true) :
    getAvailableTimeSlots data base dayOfWeek serviceId vehicleYear = [] := by
  rcases h with h | ⟨schedule, hs, hcl⟩
  · simp [getAvailableTimeSlots, h]
  · simp [getAvailableTimeSlots, hs, hcl]

/-- A store whose only schedule entry is a closed Monday. -/
def closedDemo : SchedulingData :=
  { appointments := []
    shop_schedules := [{ mondaySchedule with is_closed := true }]
    service_durations := getDefaultServiceDurations 0 }

/-- Instantiation of `claim_C9`: closed Monday and schedule-free Tuesday both
yield no slots. -/
theorem claim_C9_witness :
    getAvailableTimeSlots closedDemo 0 1 "oil-change" none = [] ∧
    getAvailableTimeSlots closedDemo 0 2 "oil-change" none = [] :=
  ⟨claim_C9 closedDemo 0 1 "oil-change" none
      (Or.inr ⟨{ mondaySchedule with is_closed := true }, by decide,
        by decide⟩),
   claim_C9 closedDemo 0 2 "oil-change" none (Or.inl (by decide))⟩

/-- C7 (amended): with the seeded Monday hours 08:00-17:00, lunch
12:00-13:00, a 30-minute service and zero appointments, the generated slots
step from 08:00 in 30-minute increments, so no slot starts at 11:45; the
slots overlapping the lunch window are the ones starting 12:00 and 12:30,
reported unavailable with reason `"lunch"`, and the 08:00 slot is
available. -/
theorem claim_C7 :
    ((mondaySlots.filter (fun s => s.start == 720 * 60000)).map
      (fun s => (s.available, s.reason))) = [(false, some "lunch")] ∧
    ((mondaySlots.filter (fun s => s.start == 750 * 60000)).map
      (fun s => (s.available, s.reason))) = [(false, some "lunch")] ∧
    ((mondaySlots.filter (fun s => s.start == 480 * 60000)).map
      (fun s => s.available)) = [true] ∧
    mondaySlots.length = 18 := by
  decide

/-- C7 as stated is false on the code: the slot sequence for that scenario
contains no slot starting at 11:45 (705 minutes), because slots start only
at 30-minute steps from 08:00. -/
theorem claim_C7_counterexample :
    (mondaySlots.all (fun s => s.start != 705 * 60000)) = true ∧
    mondaySlots ≠ [] := by
  decide

/-- C8 (amended): every generated slot — available or not — carries the
hardcoded MVP default list `["tech-001", "tech-002"]` returned by
`getAvailableTechs`, not the technician roster. -/
theorem claim_C8 (data : SchedulingData) (base : Int) (dayOfWeek : Nat)
    (serviceId : String) (vehicleYear : Option Int) :
    ∀ s ∈ getAvailableTimeSlots data base dayOfWeek serviceId vehicleYear,
      s.available_techs = getAvailableTechs s.start s.«end» serviceId ∧
      s.available_techs = ["tech-001", "tech-002"] := by
  intro s hs
  rcases hsch : getShopScheduleForDay data dayOfWeek with _ | schedule
  · simp only [getAvailableTimeSlots, hsch] at hs
    simp at hs
  · by_cases hcl : schedule.is_closed
    · simp only [getAvailableTimeSlots, hsch] at hs
      simp [hcl] at hs
    · rw [getAvailableTimeSlots_eq data base dayOfWeek serviceId vehicleYear
        schedule hsch (by simpa using hcl)] at hs
      have h4 := (slotLoop_mem data schedule serviceId base
        (base + schedule.close_time * 60000)
        (calculateServiceDuration data serviceId vehicleYear) _ _ s
        hs).2.2.2.1
      exact ⟨h4, h4⟩

/-- The first Monday slot, as produced by the loop. -/
def mondayFirstSlot : TimeSlot :=
  { start := 480 * 60000, «end» := 510 * 60000, available := true,
    reason := none, available_techs := ["tech-001", "tech-002"] }

/-- Instantiation of `claim_C8` at the 08:00 Monday slot. -/
theorem claim_C8_witness :
    mondayFirstSlot ∈ mondaySlots ∧
    mondayFirstSlot.available_techs = ["tech-001", "tech-002"] :=
  ⟨by decide,
    (claim_C8 (defaultSchedulingData 0) 0 1 "oil-change" none mondayFirstSlot
      (by decide)).2⟩

/-- C8 as stated is false on the code: on the seeded stores the technician
roster has three profiles (`tech-001`, `tech-002`, `tech-003`), while the
available 08:00 Monday slot carries only the hardcoded pair, so the carried
list is not the list of all technicians. -/
theorem claim_C8_counterexample :
    ((getDefaultTechProfiles 0).map (fun t => t.id)) =
      ["tech-001", "tech-002", "tech-003"] ∧
    ((mondaySlots.filter (fun s => s.available)).all
      (fun s => s.available_techs == ["tech-001", "tech-002"])) = true ∧
    (mondaySlots.filter (fun s => s.available)) ≠ [] ∧
    (["tech-001", "tech-002"] : List String) ≠
      (getDefaultTechProfiles 0).map (fun t => t.id) := by
  refine ⟨by decide, by decide, by decide, by decide⟩

/-! ## Lemmas about the ranking engine -/

lemma specialtyFold_no_match (jt : String) :
    ∀ (sps : List String) (acc : Int × Bool),
      (∀ sp ∈ sps, jsIncludes jt (jsToLower sp) = false ∧
        matchesSpecialtyKeywords (jsToLower sp) jt = false ∧
        matchesSpecialtyCategory (jsToLower sp) jt = false) →
      sps.foldl (specialtyStep jt) acc = acc := by
  intro sps
  induction sps with
  | nil => intro acc _; rfl
  | cons sp rest ih =>
    intro acc h
    have hsp := h sp (List.mem_cons_self sp rest)
    rw [List.foldl_cons,
      show specialtyStep jt acc sp = acc by
        simp [specialtyStep, hsp.1, hsp.2.1, hsp.2.2]]
    exact ih acc fun x hx => h x (List.mem_cons_of_mem _ hx)

/-- C5: scoring is the additive sum of the independent rules: with four or
more active jobs, at least one specialty and no tier matching the job text
(and neither rate-gated extra bonus applicable), the score is `-50` plus the
hourly-rate and certification bonuses minus `10`; with zero active jobs, rate
40, three certifications and one directly-matching specialty (and neither
extra bonus applicable), the score is `25 + 15 + 15 + 40 = 95`. -/
theorem claim_C5 (data : StorageData) (workOrder : WorkOrder)
    (today weekStart : Int) :
    (∀ tech : TechProfile,
      4 ≤ (getTechWorkload data tech.id today weekStart).activeJobs →
      ∀ sps : List String, tech.specialties = some sps → sps ≠ [] →
      (∀ sp ∈ sps,
        jsIncludes (jobText workOrder) (jsToLower sp) = false ∧
        matchesSpecialtyKeywords (jsToLower sp) (jobText workOrder) = false ∧
        matchesSpecialtyCategory (jsToLower sp) (jobText workOrder) =
          false) →
      scoreTech data workOrder tech today weekStart =
        -50 + (experienceBonus tech + certificationBonus tech +
          vehicleAgeBonus data workOrder tech + urgencyBonus workOrder tech)
          - 10) ∧
    (∀ tech : TechProfile,
      (getTechWorkload data tech.id today weekStart).activeJobs = 0 →
      tech.hourly_rate = some 40 →
      (∃ cs, tech.certifications = some cs ∧ cs.length = 3) →
      (∃ sp, tech.specialties = some [sp] ∧
        jsIncludes (jobText workOrder) (jsToLower sp) = true) →
      vehicleAgeBonus data workOrder tech = 0 →
      urgencyBonus workOrder tech = 0 →
      scoreTech data workOrder tech today weekStart = 95) := by
  constructor
  · intro tech hwl sps hsps hne hnomatch
    have h1 : workloadAdjustment
        (getTechWorkload data tech.id today weekStart).activeJobs = -50 := by
      unfold workloadAdjustment
      rw [if_pos hwl]
    have h2 : specialtyAdjustment workOrder tech = -10 := by
      simp only [specialtyAdjustment, hsps]
      rw [if_pos (List.length_pos.mpr hne),
        specialtyFold_no_match (jobText workOrder) sps (0, false) hnomatch]
      simp
    unfold scoreTech
    rw [h1, h2]
    ring
  · intro tech hwl hrate hcert hspec hvb hub
    obtain ⟨cs, hcs, hlen⟩ := hcert
    obtain ⟨sp, hsp, hdirect⟩ := hspec
    have h1 : workloadAdjustment
        (getTechWorkload data tech.id today weekStart).activeJobs = 25 := by
      rw [hwl]
      decide
    have h2 : experienceBonus tech = 15 := by
      unfold experienceBonus
      rw [hrate]
      norm_num
    have h3 : certificationBonus tech = 15 := by
      simp only [certificationBonus, hcs]
      rw [hlen]
      norm_num
    have h4 : specialtyAdjustment workOrder tech = 40 := by
      simp only [specialtyAdjustment, hsp]
      simp [specialtyStep, hdirect]
    unfold scoreTech
    rw [h1, h2, h3, h4, hvb, hub]
    norm_num

/-- The work order scored in the ranking demo: concern "Brake problem", no
vehicle reference. -/
def woRanked : WorkOrder :=
  { id := "wo-1", vehicle_id := "", customer_id := "cust-1",
    status := .pending, assigned_tech := none, mileage := none,
    customer_concern := some "Brake problem", description := none,
    diagnosis := none, created_at := 0, updated_at := 0 }

/-- A pending work order assigned to `tech-A` (four of these make up the
overloaded technician's queue). -/
def assignedWO (woId : String) : WorkOrder :=
  { id := woId, vehicle_id := "", customer_id := "cust-2",
    status := .pending, assigned_tech := some "tech-A", mileage := none,
    customer_concern := none, description := none, diagnosis := none,
    created_at := 0, updated_at := 0 }

/-- Overloaded junior technician: four active jobs, one certification, rate
20, specialty "transmission" (matching nothing in "brake problem"). -/
def techA : TechProfile :=
  { id := "tech-A", name := "A", employee_id := none,
    certifications := some ["c1"], specialties := some ["transmission"],
    hourly_rate := some 20, active := true, created_at := 0, updated_at := 0 }

/-- Free senior technician: zero active jobs, three certifications, rate 40,
specialty "brake" (a direct substring of the job text). -/
def techB : TechProfile :=
  { id := "tech-B", name := "B", employee_id := none,
    certifications := some ["c1", "c2", "c3"], specialties := some ["brake"],
    hourly_rate := some 40, active := true, created_at := 0, updated_at := 0 }

/-- Store for the ranking scenarios: the scored work order, four active work
orders assigned to `tech-A`, and the two technicians. -/
def rankingDemo : StorageData :=
  { work_orders := [woRanked, assignedWO "wo-a1", assignedWO "wo-a2",
      assignedWO "wo-a3", assignedWO "wo-a4"]
    vehicles := []
    tech_profiles := [techA, techB]
    time_entries := [] }

/-- Instantiation of `claim_C5` on `rankingDemo`: `tech-A` scores
`-50 + (5 + 5) - 10 = -50`, `tech-B` scores `95`. -/
theorem claim_C5_witness :
    4 ≤ (getTechWorkload rankingDemo "tech-A" 0 0).activeJobs ∧
    scoreTech rankingDemo woRanked techA 0 0 =
      -50 + (experienceBonus techA + certificationBonus techA +
        vehicleAgeBonus rankingDemo woRanked techA +
        urgencyBonus woRanked techA) - 10 ∧
    (getTechWorkload rankingDemo "tech-B" 0 0).activeJobs = 0 ∧
    scoreTech rankingDemo woRanked techB 0 0 = 95 :=
  ⟨by decide,
   (claim_C5 rankingDemo woRanked 0 0).1 techA (by decide) ["transmission"]
     (by decide) (by decide) (by decide),
   by decide,
   (claim_C5 rankingDemo woRanked 0 0).2 techB (by decide) (by decide)
     ⟨["c1", "c2", "c3"], by decide, by decide⟩
     ⟨"brake", by decide, by decide⟩ (by decide) (by decide)⟩

/-- C6: `suggestTechForWorkOrder` returns the empty list when the work order
is unknown or no active technician exists; otherwise it scores every active
technician, sorts the full scored list descending by score and returns at
most the first five. -/
theorem claim_C6 (data : StorageData) (workOrderId : String)
    (today weekStart : Int) :
    (data.work_orders.find? (fun wo => wo.id == workOrderId) = none →
      suggestTechForWorkOrder data workOrderId today weekStart = []) ∧
    (data.tech_profiles.filter (fun t => t.active) = [] →
      suggestTechForWorkOrder data workOrderId today weekStart = []) ∧
    (suggestTechForWorkOrder data workOrderId today weekStart).length ≤ 5 ∧
    List.Sorted scoreOrder
      (suggestTechForWorkOrder data workOrderId today weekStart) ∧
    (∀ workOrder,
      data.work_orders.find? (fun wo => wo.id == workOrderId) =
        some workOrder →
      ∃ full : List ScoredTech,
        full.Perm ((data.tech_profiles.filter (fun t => t.active)).map
          (scoredEntry data workOrder today weekStart)) ∧
        List.Sorted scoreOrder full ∧
        suggestTechForWorkOrder data workOrderId today weekStart =
          full.take 5) := by
  haveI : IsTotal ScoredTech scoreOrder := ⟨fun a b => le_total b.score a.score⟩
  haveI : IsTrans ScoredTech scoreOrder :=
    ⟨fun _ _ _ h1 h2 => le_trans h2 h1⟩
  cases hf : data.work_orders.find? (fun wo => wo.id == workOrderId) with
  | none =>
    have hsug : suggestTechForWorkOrder data workOrderId today weekStart
        = [] := by
      simp [suggestTechForWorkOrder, hf]
    refine ⟨fun _ => hsug, fun _ => hsug, ?_, ?_, ?_⟩
    · rw [hsug]; decide
    · rw [hsug]; exact List.sorted_nil
    · intro workOrder hwo
      exact Option.noConfusion hwo
  | some workOrder =>
    by_cases hempty : (data.tech_profiles.filter (fun t => t.active)).length
        = 0
    · have hnil : data.tech_profiles.filter (fun t => t.active) = [] :=
        List.length_eq_zero.mp hempty
      have hsug : suggestTechForWorkOrder data workOrderId today weekStart
          = [] := by
        simp [suggestTechForWorkOrder, hf, hempty]
      refine ⟨fun h => Option.noConfusion h, fun _ => hsug, ?_, ?_, ?_⟩
      · rw [hsug]; decide
      · rw [hsug]; exact List.sorted_nil
      · intro workOrder' hwo'
        cases hwo'
        exact ⟨[], by rw [hnil]; rfl, List.sorted_nil, by rw [hsug]; rfl⟩
    · have hsug : suggestTechForWorkOrder data workOrderId today weekStart =
          (List.insertionSort scoreOrder
            ((data.tech_profiles.filter (fun t => t.active)).map
              (scoredEntry data workOrder today weekStart))).take 5 := by
        simp [suggestTechForWorkOrder, hf, hempty]
      have hsorted : List.Sorted scoreOrder
          (List.insertionSort scoreOrder
            ((data.tech_profiles.filter (fun t => t.active)).map
              (scoredEntry data workOrder today weekStart))) :=
        List.sorted_insertionSort scoreOrder _
      refine ⟨fun h => Option.noConfusion h, ?_, ?_, ?_, ?_⟩
      · intro h
        exact absurd (by rw [h]; rfl) hempty
      · rw [hsug]
        simp
      · rw [hsug]
        exact List.Pairwise.sublist (List.take_sublist 5 _) hsorted
      · intro workOrder' hwo'
        cases hwo'
        exact ⟨_, List.perm_insertionSort scoreOrder _, hsorted, hsug⟩

/-- A store with a work order but no technicians at all. -/
def noTechDemo : StorageData :=
  { work_orders := [woRanked], vehicles := [], tech_profiles := []
    time_entries := [] }

/-- Instantiation of `claim_C6`: ranking on `rankingDemo` is short and
sorted; an unknown work order and a technician-free roster both give the
empty list. -/
theorem claim_C6_witness :
    (suggestTechForWorkOrder rankingDemo "wo-1" 0 0).length ≤ 5 ∧
    List.Sorted scoreOrder (suggestTechForWorkOrder rankingDemo "wo-1" 0 0) ∧
    suggestTechForWorkOrder rankingDemo "missing" 0 0 = [] ∧
    suggestTechForWorkOrder noTechDemo "wo-1" 0 0 = [] :=
  ⟨(claim_C6 rankingDemo "wo-1" 0 0).2.2.1,
   (claim_C6 rankingDemo "wo-1" 0 0).2.2.2.1,
   (claim_C6 rankingDemo "missing" 0 0).1 (by decide),
   (claim_C6 noTechDemo "wo-1" 0 0).2.1 (by decide)⟩

end MechanicShop
